import Mathlib

/-!
Verification of the conversational-honeypot service against its design
specification.

The Python source is embedded shallowly:

* pure functions become Lean functions over `String` / `List Char`;
* Python `set` objects become `Finset String` (a Python `set` is a finite
  set of strings; `list(set(xs))` materialises the set in an unspecified
  order, so set-level facts are stated via `Finset`/`List.toFinset` or via
  order-insensitive observations such as list length);
* calls to the external language model are modelled by explicit oracle
  arguments; the oracle's shape follows each wrapper's error behaviour:
  `generate_text` re-raises on failure (`Option String`, `none` = raised),
  while `generate_json` catches call and parse failures itself and returns
  an empty dict, so its oracle carries that dict and reserves `none` for the
  exceptions that still escape it (see the scam-classifier section);
* `datetime.utcnow()` becomes an explicit `now : Nat` argument (seconds);
* the in-memory session dictionary becomes an association list threaded
  through the store operations.
-/

/-! ## Generic string helpers (Python `in`, `.lower()`, `.strip()`, `.title()`) -/

/-- Python `needle in hay` (substring containment) on character lists. -/
def containsSub (needle : List Char) : List Char → Bool
  | [] => needle.isEmpty
  | c :: rest => needle.isPrefixOf (c :: rest) || containsSub needle rest

/-- Python `needle in hay` for `String`s. -/
def strContains (hay needle : String) : Bool :=
  containsSub needle.data hay.data

/-- The ASCII characters matched by Python's regex class `[\s\-]` (whitespace
or hyphen); also the characters stripped by `str.strip()`. -/
def pySep (c : Char) : Bool :=
  c == '-' || c == ' ' || c == '\t' || c == '\n' || c == '\r' || c == '\x0b' || c == '\x0c'

/-- `re.sub(r'[\s\-]', '', s)` on character lists. -/
def stripSep (l : List Char) : List Char :=
  l.filter (fun c => !pySep c)

/-- Python `str.strip()` whitespace (no hyphen). -/
def pySpace (c : Char) : Bool :=
  c == ' ' || c == '\t' || c == '\n' || c == '\r' || c == '\x0b' || c == '\x0c'

/-- Python `str.strip()`. -/
def pyStrip (s : String) : String :=
  String.mk (((s.data.dropWhile (fun c => pySpace c)).reverse.dropWhile (fun c => pySpace c)).reverse)

/-- One step of Python `str.title()`: a cased character is uppercased when the
previous character is not alphabetic, lowercased otherwise. -/
def pyTitleAux : Bool → List Char → List Char
  | _, [] => []
  | prevAlpha, c :: rest =>
    (if c.isAlpha then (if prevAlpha then c.toLower else c.toUpper) else c) :: pyTitleAux c.isAlpha rest

/-- Python `str.title()` (ASCII fragment, as used on scam-type tags). -/
def pyTitle (s : String) : String :=
  String.mk (pyTitleAux false s.data)

/-- Python `s.replace("_", " ")` for the single-character pattern used in the
notes fallback. -/
def replaceUnderscore (s : String) : String :=
  String.mk (s.data.map (fun c => if c = '_' then ' ' else c))

/-- Python `str.lower()` (character-wise lowercasing). -/
def pyLower (s : String) : String :=
  String.mk (s.data.map Char.toLower)

/-- Sum of the character code points of a string (`sum(ord(c) for c in s)`). -/
def charSum (s : String) : Nat :=
  (s.data.map Char.toNat).sum

/-! ## Data model: `ExtractedIntelligence`
Embeds the per-category record of `app/agents/intelligence_extractor.py`
(dataclass `ExtractedIntelligence`) and the structurally identical pydantic
model in `app/models/intelligence.py`.  Each category is a Python set of
strings (the source stores `list(set(...))`), modelled as `Finset String`. -/

@[ext] structure ExtractedIntelligence where
  bank_accounts : Finset String
  upi_ids : Finset String
  phone_numbers : Finset String
  phishing_links : Finset String
  suspicious_keywords : Finset String
  email_addresses : Finset String
  case_ids : Finset String
  policy_numbers : Finset String
  order_numbers : Finset String
deriving DecidableEq

/-- The empty record (`ExtractedIntelligence()` with all default factories). -/
def ExtractedIntelligence.empty : ExtractedIntelligence :=
  ⟨∅, ∅, ∅, ∅, ∅, ∅, ∅, ∅, ∅⟩

/-- `ExtractedIntelligence.merge`: per category, `list(set(self.x + other.x))`,
i.e. the union of the two element sets. -/
def ExtractedIntelligence.merge (a b : ExtractedIntelligence) : ExtractedIntelligence where
  bank_accounts := a.bank_accounts ∪ b.bank_accounts
  upi_ids := a.upi_ids ∪ b.upi_ids
  phone_numbers := a.phone_numbers ∪ b.phone_numbers
  phishing_links := a.phishing_links ∪ b.phishing_links
  suspicious_keywords := a.suspicious_keywords ∪ b.suspicious_keywords
  email_addresses := a.email_addresses ∪ b.email_addresses
  case_ids := a.case_ids ∪ b.case_ids
  policy_numbers := a.policy_numbers ∪ b.policy_numbers
  order_numbers := a.order_numbers ∪ b.order_numbers

/-- `ExtractedIntelligence.is_empty`: true only when all categories are empty. -/
def ExtractedIntelligence.is_empty (a : ExtractedIntelligence) : Bool :=
  a.bank_accounts = ∅ ∧ a.upi_ids = ∅ ∧ a.phone_numbers = ∅ ∧ a.phishing_links = ∅ ∧
    a.suspicious_keywords = ∅ ∧ a.email_addresses = ∅ ∧ a.case_ids = ∅ ∧
    a.policy_numbers = ∅ ∧ a.order_numbers = ∅

/-- C2: merging two IntelligenceRecords is per-category set union, so merge is
commutative (`merge(A,B) == merge(B,A)`) and idempotent (`merge(A,A) == A`). -/
theorem merge_comm_and_idem (A B : ExtractedIntelligence) :
    A.merge B = B.merge A ∧ A.merge A = A := by
  constructor
  · apply ExtractedIntelligence.ext <;> exact Finset.union_comm _ _
  · apply ExtractedIntelligence.ext <;> exact Finset.union_self _

/-! ## Persona responder: language and persona selection
Embeds `get_language_for_session` and `select_persona_for_session` from
`app/agents/honeypot_persona.py`.  `random.choice(LANGUAGES)` (taken only for
an empty session id) is modelled by an explicit draw `rng : Fin 2` giving the
chosen index.  Of each persona dictionary only the identifying fields (name,
language) are modelled; the remaining entries are prompt flavour text that no
claim observes. -/

def LANGUAGES : List String := ["hinglish", "english"]

/-- `get_language_for_session`: empty id draws `random.choice(LANGUAGES)`;
otherwise the language is `LANGUAGES[char_sum % 2]` with `char_sum` the sum of
the id's character codes. -/
def get_language_for_session (rng : Fin 2) (session_id : String) : String :=
  if session_id = "" then LANGUAGES.getD rng.val ""
  else LANGUAGES.getD (charSum session_id % 2) ""

structure Persona where
  name : String
  language : String
deriving DecidableEq

def elderly_hinglish : Persona := { name := "Kamala Devi", language := "hinglish" }

def elderly_english : Persona := { name := "Margaret D\x27Souza", language := "english" }

def young_professional : Persona := { name := "Rahul Verma", language := "english" }

def worried_parent : Persona := { name := "Sunita Sharma", language := "hinglish" }

/-- `select_persona_for_session`: chooses the persona dictionary from the
session-derived language and the preferred type. -/
def select_persona_for_session (rng : Fin 2) (session_id : String)
    (preferred_type : String) : Persona :=
  let language := get_language_for_session rng session_id
  if preferred_type = "elderly" then
    (if language = "hinglish" then elderly_hinglish else elderly_english)
  else if preferred_type = "young_professional" then young_professional
  else if preferred_type = "worried_parent" then worried_parent
  else
    (if language = "hinglish" then elderly_hinglish else elderly_english)

lemma get_language_indep (sid : String) (h : sid ≠ "") (r1 r2 : Fin 2) :
    get_language_for_session r1 sid = get_language_for_session r2 sid := by
  simp [get_language_for_session, h]

/-- C9 counterexample: with the empty (still stable) session key and the same
persona selector, two invocations that see different random draws select
different personas, so the selection is not a pure function of the session key
and the selector. -/
theorem select_persona_empty_key_unstable :
    select_persona_for_session 0 "" "elderly" ≠ select_persona_for_session 1 "" "elderly" := by
  decide

/-- C9 (amended): for every non-empty session key, persona selection is a
deterministic pure function of the session key and the persona selector — the
random draw is never consulted — so such a session keeps one persona and
language for its whole lifetime. -/
theorem select_persona_deterministic (sid pt : String) (r1 r2 : Fin 2) (h : sid ≠ "") :
    select_persona_for_session r1 sid pt = select_persona_for_session r2 sid pt := by
  unfold select_persona_for_session
  rw [get_language_indep sid h r1 r2]

/-- Witness for `select_persona_deterministic` at session key "S1". -/
theorem select_persona_deterministic_witness :
    select_persona_for_session 0 "S1" "elderly" = select_persona_for_session 1 "S1" "elderly" :=
  select_persona_deterministic "S1" "elderly" 0 1 (by decide)

/-- C10: for every non-empty session id the selected language is independent
of the random draw and equals the language picked by the parity of the sum of
the id's character codes, while for the empty id the two possible random draws
return the two different languages. -/
theorem get_language_parity (sid : String) (r1 r2 : Fin 2) :
    (sid ≠ "" →
      get_language_for_session r1 sid = get_language_for_session r2 sid ∧
      get_language_for_session r1 sid =
        (if charSum sid % 2 = 0 then "hinglish" else "english")) ∧
    (get_language_for_session 0 "" = "hinglish" ∧ get_language_for_session 1 "" = "english") := by
  refine ⟨fun h => ⟨get_language_indep sid h r1 r2, ?_⟩, by decide, by decide⟩
  rcases Nat.mod_two_eq_zero_or_one (charSum sid) with h2 | h2 <;>
    simp [get_language_for_session, h, h2, LANGUAGES]

/-- Witness for `get_language_parity` at session id "S1" (char sum 132, even,
so both draws give "hinglish"). -/
theorem get_language_parity_witness :
    get_language_for_session 0 "S1" = get_language_for_session 1 "S1" ∧
    get_language_for_session 0 "S1" = (if charSum "S1" % 2 = 0 then "hinglish" else "english") :=
  (get_language_parity "S1" 0 1).1 (by decide)

/-! ## Scam classifier
Embeds `detect_scam` from `app/agents/scam_detector.py` together with the
error behaviour of `generate_json` in `app/services/gemini.py`.
`generate_json` wraps the model call and the JSON parse in its own `try` and
catches both `json.JSONDecodeError` and `Exception`, returning the empty dict
`\x7b\x7d` instead of raising — so a timeout, quota error or unparseable output
does NOT raise inside `detect_scam`; only `get_client()` (called before that
`try`; it raises when `GOOGLE_API_KEY` is unset) lets an exception reach
`detect_scam`'s `except` block.  The oracle is therefore:

* `none` — an exception escapes `generate_json` (in the source: only the
  missing-API-key `ValueError` from `get_client()`);
* `some r` — `generate_json` returned a dict; `r` carries the field values
  after the `.get` defaults, so the empty dict returned on an external-call
  failure or unparseable output is `generate_json_failure` below.  Inside it,
  `r.confidence` models `float(result.get("confidence", 0.0))`: `none` when
  `float()` raises on a non-floatable parsed value (that exception is raised
  inside `detect_scam`'s own `try` and routes to the keyword fallback),
  `some q` for a numeric value. -/

structure ScamAnalysis where
  is_scam : Bool
  confidence : ℚ
  scam_type : String
  indicators : List String
deriving DecidableEq

structure GeminiDetectJson where
  is_scam : Bool
  confidence : Option ℚ
  scam_type : String
  indicators : List String
deriving DecidableEq

/-- The `.get`-default view of the empty dict that `generate_json` returns on
an external-call failure or unparseable output: `is_scam = False`,
`confidence = float(0.0)`, `scam_type = "unknown"`, `indicators = []`. -/
def generate_json_failure : GeminiDetectJson where
  is_scam := false
  confidence := some 0
  scam_type := "unknown"
  indicators := []

/-- The short list of high-signal scam terms of the fallback path. -/
def detect_scam_keywords : List String :=
  ["urgent", "otp", "blocked", "verify", "bank", "upi", "kyc", "aadhar"]

/-- The deterministic keyword fallback of `detect_scam` (its `except` block —
reachable only when `get_client()` raises or a parsed confidence value is not
floatable, since `generate_json` swallows call and parse failures). -/
def detect_fallback (message : String) : ScamAnalysis :=
  let is_likely_scam := detect_scam_keywords.any (fun kw => strContains (pyLower message) kw)
  { is_scam := is_likely_scam
    confidence := if is_likely_scam then 6/10 else 3/10
    scam_type := "unknown"
    indicators := if is_likely_scam then ["keyword_match"] else [] }

/-- `detect_scam`: a returned dict with a floatable confidence is packaged
as-is (the empty failure dict included); an exception — escaped `get_client()`
or a non-floatable confidence — falls back to the keyword match. -/
def detect_scam (oracle : Option GeminiDetectJson) (message : String) : ScamAnalysis :=
  match oracle with
  | some r =>
    match r.confidence with
    | some c =>
      { is_scam := r.is_scam, confidence := c, scam_type := r.scam_type,
        indicators := r.indicators }
    | none => detect_fallback message
  | none => detect_fallback message

/-- C6 is false on the code: on a failed or unparseable external call
`generate_json` returns the empty dict instead of raising, so `detect_scam`
takes its success path and returns `is_scam = False` with confidence 0.0 —
not the conservative keyword fallback the spec mandates — even for a message
containing the high-signal term "otp", on which that (unreached) fallback
would have answered `is_scam = True` with confidence 0.6. -/
theorem detect_scam_external_failure_not_conservative :
    strContains (pyLower "Please share the OTP now") "otp" = true ∧
    detect_scam (some generate_json_failure) "Please share the OTP now" =
      { is_scam := false, confidence := 0, scam_type := "unknown", indicators := [] } ∧
    (detect_fallback "Please share the OTP now").is_scam = true ∧
    (detect_fallback "Please share the OTP now").confidence = 6/10 := by
  have hlikely : detect_scam_keywords.any
      (fun kw => strContains (pyLower "Please share the OTP now") kw) = true := by decide
  refine ⟨by decide, rfl, ?_, ?_⟩ <;> simp [detect_fallback, hlikely]

/-- C7 is false on the code: `detect_scam` builds the success-path analysis
with `float(result.get("confidence", 0.0))` and no clamp (the validating
pydantic `ScamAnalysis` model of `app/models/intelligence.py` is shadowed by
the plain dataclass actually used), so an out-of-range confidence 2.5 from the
external model is returned unchanged and violates `confidence ≤ 1`. -/
theorem detect_scam_confidence_unclamped :
    (detect_scam
        (some { is_scam := true, confidence := some (5/2), scam_type := "phishing",
                indicators := [] })
        "your account is blocked").confidence = 5/2 ∧
    ¬ ((detect_scam
        (some { is_scam := true, confidence := some (5/2), scam_type := "phishing",
                indicators := [] })
        "your account is blocked").confidence ≤ 1) := by
  refine ⟨rfl, ?_⟩
  show ¬ ((5 : ℚ)/2 ≤ 1)
  norm_num

/-! ## Notes generation
Embeds `generate_notes` from `app/agents/intelligence_extractor.py`.  The
awaited `generate_text` call is modelled by the oracle `llm : Option String`
(`none` when the call raises).  The conversation history only feeds the prompt
sent to the external model, i.e. it influences the output solely through the
oracle, so it is not a separate argument here.  In the fallback branch the
source tests `"urgent" in str(intelligence.suspicious_keywords)`; since
"urgent" contains no quote, bracket or comma character it cannot straddle two
elements of the printed list, so the test is modelled as: some stored keyword
contains "urgent" as a substring. -/

/-- Success branch of `generate_notes`: strip, flatten newlines, and truncate
to at most 300 characters with a trailing ellipsis. -/
def notesFromLLM (raw : String) : String :=
  let notes := String.mk ((pyStrip raw).data.map (fun c => if c = '\n' then ' ' else c))
  if notes.length > 300 then String.mk (notes.data.take 297) ++ "..." else notes

/-- Fallback branch of `generate_notes` (its `except` block): deterministic
summary built from the scam type and the tactics inferred from the record. -/
def notesFallback (intelligence : ExtractedIntelligence) (scam_type : String) : String :=
  let tactics :=
    (if ∃ kw ∈ intelligence.suspicious_keywords, strContains kw "urgent" = true
      then ["urgency"] else []) ++
    (if intelligence.upi_ids ≠ ∅ then ["payment request"] else []) ++
    (if intelligence.phishing_links ≠ ∅ then ["phishing links"] else [])
  pyTitle (replaceUnderscore scam_type) ++ " scam using " ++
    (if tactics.isEmpty then "social engineering" else String.intercalate ", " tactics) ++ "."

/-- `generate_notes`: awaits the external model; on success returns its cleaned
and capped text, on failure the deterministic fallback. -/
def generate_notes (llm : Option String) (intelligence : ExtractedIntelligence)
    (scam_type : String) : String :=
  match llm with
  | some raw => notesFromLLM raw
  | none => notesFallback intelligence scam_type

/-- C5 is false on the code: `generate_notes` is not deterministic in the
accumulated record and classification tag — it awaits the external model
(`generate_text`), so with the record and scam type held fixed two different
external outputs produce two different notes, and only a failed call takes
the deterministic fallback.  This contradicts the step-5 comment in
`app/api/routes.py` ("deterministic, no LLM call"). -/
theorem generate_notes_depends_on_llm :
    generate_notes (some "Bank fraud with OTP theft.") ExtractedIntelligence.empty "bank_fraud" ≠
      generate_notes (some "UPI refund lure.") ExtractedIntelligence.empty "bank_fraud" ∧
    generate_notes none ExtractedIntelligence.empty "bank_fraud" =
      "Bank Fraud scam using social engineering." := by
  constructor
  · decide
  · decide

/-! ## Session model and store
Embeds `ConversationSession` and the in-memory `SessionStore` from
`app/services/session.py`.  `datetime.utcnow()` is an explicit `now : Nat`
(seconds); message timestamps are likewise seconds.  The backing dictionary
`self._sessions` is an association list with unique keys; its operations
thread the updated store explicitly. -/

structure SessionMessage where
  sender : String
  text : String
  timestamp : Nat
deriving DecidableEq

structure ConversationSession where
  session_id : String
  created_at : Nat
  updated_at : Nat
  messages : List SessionMessage
  scam_detected : Bool
  scam_type : String
  confidence_level : ℚ
  intelligence : Option ExtractedIntelligence
  agent_notes : String
  callback_sent : Bool
  persona_type : String
deriving DecidableEq

/-- The dataclass defaults of `ConversationSession` at creation time `now`. -/
def newSession (session_id persona_type : String) (now : Nat) : ConversationSession where
  session_id := session_id
  created_at := now
  updated_at := now
  messages := []
  scam_detected := false
  scam_type := "unknown"
  confidence_level := 0
  intelligence := none
  agent_notes := ""
  callback_sent := false
  persona_type := persona_type

/-- `ConversationSession.add_message`: append the message and refresh
`updated_at` to the current time. -/
def ConversationSession.add_message (s : ConversationSession) (sender text : String)
    (now : Nat) : ConversationSession :=
  { s with messages := s.messages ++ [⟨sender, text, now⟩], updated_at := now }

/-- `ConversationSession.message_count`. -/
def ConversationSession.message_count (s : ConversationSession) : Nat :=
  s.messages.length

/-- `ConversationSession.is_expired`: the current time is strictly past
`updated_at + session_timeout`. -/
def ConversationSession.is_expired (s : ConversationSession) (timeout now : Nat) : Bool :=
  now > s.updated_at + timeout

/-- The in-memory store: `self._sessions` as an association list. -/
def SessionStore := List (String × ConversationSession)

/-- Dictionary lookup `self._sessions.get(session_id)`. -/
def SessionStore.find : SessionStore → String → Option ConversationSession
  | [], _ => none
  | (k, v) :: rest, id => if k = id then some v else SessionStore.find rest id

/-- Dictionary deletion `del self._sessions[session_id]` (no-op when absent). -/
def SessionStore.delete : SessionStore → String → SessionStore
  | [], _ => []
  | (k, v) :: rest, id =>
    if k = id then SessionStore.delete rest id else (k, v) :: SessionStore.delete rest id

/-- Dictionary assignment `self._sessions[session_id] = session`. -/
def SessionStore.save (st : SessionStore) (s : ConversationSession) : SessionStore :=
  (s.session_id, s) :: SessionStore.delete st s.session_id

/-- `SessionStore.get`: lazy expiry — an expired entry is deleted as a side
effect and reported absent. -/
def SessionStore.get (st : SessionStore) (id : String) (timeout now : Nat) :
    Option ConversationSession × SessionStore :=
  match SessionStore.find st id with
  | none => (none, st)
  | some s =>
    if s.is_expired timeout now then (none, SessionStore.delete st id) else (some s, st)

/-- `SessionStore.create`: store and return a fresh default session. -/
def SessionStore.create (st : SessionStore) (id persona_type : String) (now : Nat) :
    ConversationSession × SessionStore :=
  let s := newSession id persona_type now
  (s, SessionStore.save st s)

/-- `SessionStore.get_or_create`. -/
def SessionStore.get_or_create (st : SessionStore) (id persona_type : String)
    (timeout now : Nat) : ConversationSession × SessionStore :=
  match SessionStore.get st id timeout now with
  | (some s, st1) => (s, st1)
  | (none, st1) => SessionStore.create st1 id persona_type now

/-- `SessionStore.update`: refresh `updated_at` and write the session back. -/
def SessionStore.update (st : SessionStore) (s : ConversationSession) (now : Nat) :
    SessionStore :=
  SessionStore.save st { s with updated_at := now }

lemma SessionStore.find_delete (st : SessionStore) (id : String) :
    SessionStore.find (SessionStore.delete st id) id = none := by
  induction st with
  | nil => rfl
  | cons p rest ih =>
    obtain ⟨k, v⟩ := p
    by_cases h : k = id
    · simpa [SessionStore.delete, h] using ih
    · simpa [SessionStore.delete, SessionStore.find, h] using ih

/-- C8: whenever the stored session's idle time exceeds the configured timeout,
`get` reports it absent and deletes the physical entry, and a subsequent
`get_or_create` for the same id returns a fresh default session (a total
function — no error is raised). -/
theorem sessionStore_lazy_expiry (st : SessionStore) (id persona_type : String)
    (timeout now : Nat) (s : ConversationSession)
    (hfound : SessionStore.find st id = some s)
    (hidle : now > s.updated_at + timeout) :
    (SessionStore.get st id timeout now).1 = none ∧
    SessionStore.find (SessionStore.get st id timeout now).2 id = none ∧
    (SessionStore.get_or_create st id persona_type timeout now).1 =
      newSession id persona_type now := by
  have hexp : s.is_expired timeout now = true := decide_eq_true hidle
  have hget : SessionStore.get st id timeout now = (none, SessionStore.delete st id) := by
    simp [SessionStore.get, hfound, hexp]
  refine ⟨by rw [hget], by rw [hget]; exact SessionStore.find_delete st id, ?_⟩
  simp [SessionStore.get_or_create, hget, SessionStore.create]

/-- Witness for `sessionStore_lazy_expiry`: a store holding one session for
"S1" last active at time 0, with timeout 3600, looked up at time 3601. -/
theorem sessionStore_lazy_expiry_witness :
    (SessionStore.get [("S1", newSession "S1" "elderly" 0)] "S1" 3600 3601).1 = none ∧
    SessionStore.find (SessionStore.get [("S1", newSession "S1" "elderly" 0)] "S1" 3600 3601).2
      "S1" = none ∧
    (SessionStore.get_or_create [("S1", newSession "S1" "elderly" 0)] "S1" "elderly"
      3600 3601).1 = newSession "S1" "elderly" 3601 :=
  sessionStore_lazy_expiry [("S1", newSession "S1" "elderly" 0)] "S1" "elderly" 3600 3601
    (newSession "S1" "elderly" 0) (by decide) (by decide)

/-! ## Turn orchestration
Embeds the session-mutating core of `analyze_message` in `app/api/routes.py`
for an existing session (the state machine steps: append inbound turn,
conditional classification, append agent reply, merge intelligence, notes,
callback flag).  The awaited sub-calls are oracles gathered in `TurnOracles`:
`detection` is the `ScamAnalysis` returned by `detect_scam` (itself total —
its internal fallback is modelled above), `agent_reply` is the reply after the
responder's own fallback handling, `extraction` the merged/fallback
`ExtractedIntelligence`, and `notes` the `generate_notes` result.  The
returned `Bool` records whether the classification stage invoked the external
classifier this turn. -/

structure TurnOracles where
  detection : ScamAnalysis
  agent_reply : String
  extraction : ExtractedIntelligence
  notes : String
deriving DecidableEq

/-- One `/analyze` turn over an already-loaded session. -/
def analyze_turn (o : TurnOracles) (s0 : ConversationSession) (sender text : String)
    (now : Nat) : ConversationSession × Bool :=
  let s1 := s0.add_message sender text now
  let cls :=
    if s1.scam_detected then (s1, false)
    else ({ s1 with
              scam_detected := o.detection.is_scam,
              scam_type := o.detection.scam_type,
              confidence_level := o.detection.confidence }, true)
  let s2 := (cls.1).add_message "user" o.agent_reply now
  let s3 := { s2 with
                intelligence := some (match s2.intelligence with
                  | some i => i.merge o.extraction
                  | none => o.extraction) }
  let s4 := if s3.scam_detected then { s3 with agent_notes := o.notes } else s3
  let s5 := if s4.scam_detected then { s4 with callback_sent := true } else s4
  (s5, cls.2)

/-- C1: the scam flag is monotonic — a turn entered with `scam_detected = true`
leaves it true whatever the oracles return — the classifier is invoked exactly
when `scam_detected` is currently false, and after detection the stored
`scam_type` and `confidence_level` are left unchanged by the classification
stage (and by the whole turn). -/
theorem analyze_turn_scam_flag_monotonic (o : TurnOracles) (s : ConversationSession)
    (sender text : String) (now : Nat) (h : s.scam_detected = true) :
    (analyze_turn o s sender text now).1.scam_detected = true ∧
    (analyze_turn o s sender text now).2 = false ∧
    (analyze_turn o s sender text now).1.scam_type = s.scam_type ∧
    (analyze_turn o s sender text now).1.confidence_level = s.confidence_level := by
  simp [analyze_turn, ConversationSession.add_message, h]

/-- Witness for `analyze_turn_scam_flag_monotonic`: a session already flagged
as scam, processed with an oracle that even reports `is_scam = false`, keeps
its flag, type and confidence and skips the classifier. -/
theorem analyze_turn_scam_flag_monotonic_witness :
    ({ newSession "S1" "elderly" 0 with
        scam_detected := true, scam_type := "upi_fraud", confidence_level := 9/10
      } : ConversationSession).scam_detected = true ∧
    (analyze_turn
        { detection := { is_scam := false, confidence := 0, scam_type := "none",
                         indicators := [] },
          agent_reply := "Haan ji?", extraction := ExtractedIntelligence.empty,
          notes := "n" }
        { newSession "S1" "elderly" 0 with
            scam_detected := true, scam_type := "upi_fraud", confidence_level := 9/10 }
        "scammer" "send money" 5).1.scam_detected = true :=
  ⟨rfl,
    (analyze_turn_scam_flag_monotonic
      { detection := { is_scam := false, confidence := 0, scam_type := "none",
                       indicators := [] },
        agent_reply := "Haan ji?", extraction := ExtractedIntelligence.empty,
        notes := "n" }
      { newSession "S1" "elderly" 0 with
          scam_detected := true, scam_type := "upi_fraud", confidence_level := 9/10 }
      "scammer" "send money" 5 rfl).1⟩

/-! ## Deterministic regex extraction layer
Embeds the `bank_account` and `phone` patterns of `extract_with_regex` in
`app/agents/intelligence_extractor.py` and the list comprehensions applied to
their matches.  `re.findall` is modelled as the standard left-to-right,
non-overlapping scan: at each position the pattern is attempted (with the
regex's backtracking order); on success the scanner resumes after the match,
otherwise one character further.  `\b` holds between a word character
(`[A-Za-z0-9_]`) and a non-word character or text edge.  For the pattern
`\b\d{9,18}\b` an attempt at a position succeeds exactly when the position
starts a maximal digit run of length 9–18 whose neighbours are non-word: the
greedy `\d{9,18}` cannot stop inside a run (the next digit is a word
character, failing the closing `\b`).  The scanner carries one unit of fuel
per character; every step consumes at least one character, so fuel equal to
the text length makes the model exact. -/

def isWordChar (c : Char) : Bool := c.isAlphanum || c == '_'

/-- Whether the character left of the current position is a word character
(`none` at the start of the text). -/
def wordB : Option Char → Bool
  | none => false
  | some c => isWordChar c

/-- The closing `\b` after a word character: next character absent or
non-word. -/
def endBoundary : List Char → Bool
  | [] => true
  | c :: _ => !isWordChar c

/-- One attempt of `\b\d{9,18}\b` at the current position. -/
def bankAttempt (prev : Option Char) (l : List Char) : Option (List Char × List Char) :=
  if wordB prev then none
  else
    if 9 ≤ (l.takeWhile Char.isDigit).length ∧ (l.takeWhile Char.isDigit).length ≤ 18 ∧
        endBoundary (l.dropWhile Char.isDigit) = true then
      some (l.takeWhile Char.isDigit, l.dropWhile Char.isDigit)
    else none

/-- `re.findall` scan for the bank-account pattern. -/
def bankScan : Nat → Option Char → List Char → List (List Char)
  | 0, _, _ => []
  | _ + 1, _, [] => []
  | fuel + 1, prev, c :: rest =>
    match bankAttempt prev (c :: rest) with
    | some (m, r) => m :: bankScan fuel (some (m.getLastD c)) r
    | none => bankScan fuel (some c) rest

/-- The `bank_accounts` field computed by `extract_with_regex`: findall
matches of `\b\d{9,18}\b`, kept only when 11–16 digits long, deduplicated
(`list(set(...))`). -/
def extract_with_regex_bank_accounts (text : String) : List String :=
  (((bankScan text.data.length none text.data).filter
      (fun m => 11 ≤ m.length && m.length ≤ 16)).map (fun m => String.mk m)).dedup

/-- The character class `[6-9]` of the phone pattern. -/
def isHighDigit (c : Char) : Bool := c == '6' || c == '7' || c == '8' || c == '9'

/-- The mandatory tail `[6-9]\d{9}\b` of the phone pattern. -/
def phoneCore (l : List Char) : Option (List Char × List Char) :=
  match l with
  | [] => none
  | c :: rest =>
    if isHighDigit c ∧ (rest.take 9).length = 9 ∧ (rest.take 9).all Char.isDigit = true ∧
        endBoundary (rest.drop 9) = true then
      some (c :: rest.take 9, rest.drop 9)
    else none

/-- One attempt of `\b(?:\+91[\-\s]?)?[6-9]\d{9}\b` at the current position.
The leading `\b` before a literal `+` holds only when the previous character
is a word character; before a digit only when it is not.  When the text does
not start with `+91` here, the optional group can only match empty. -/
def phonePlusBranch (prev : Option Char) (rest : List Char) : Option (List Char × List Char) :=
  if wordB prev then
    match rest with
    | [] => none
    | c :: rest2 =>
      if pySep c then
        (phoneCore rest2).map (fun p => ('+' :: '9' :: '1' :: c :: p.1, p.2))
      else (phoneCore rest).map (fun p => ('+' :: '9' :: '1' :: p.1, p.2))
  else none

def phoneAttempt (prev : Option Char) (l : List Char) : Option (List Char × List Char) :=
  match l with
  | '+' :: '9' :: '1' :: rest => phonePlusBranch prev rest
  | _ => if wordB prev then none else phoneCore l

/-- `re.findall` scan for the phone pattern. -/
def phoneScan : Nat → Option Char → List Char → List (List Char)
  | 0, _, _ => []
  | _ + 1, _, [] => []
  | fuel + 1, prev, c :: rest =>
    match phoneAttempt prev (c :: rest) with
    | some (m, r) => m :: phoneScan fuel (some (m.getLastD c)) r
    | none => phoneScan fuel (some c) rest

/-- The `phone_numbers` field computed by `extract_with_regex`: findall
matches with `re.sub(r'[\s\-]', '', .)` applied, deduplicated. -/
def extract_with_regex_phone_numbers (text : String) : List String :=
  ((phoneScan text.data.length none text.data).map (fun m => String.mk (stripSep m))).dedup

lemma bankAttempt_digits {prev : Option Char} {l m r : List Char}
    (h : bankAttempt prev l = some (m, r)) : m.all Char.isDigit = true := by
  unfold bankAttempt at h
  split at h
  · exact Option.noConfusion h
  · split at h
    · rw [Option.some.injEq, Prod.mk.injEq] at h
      obtain ⟨hm, _⟩ := h
      subst hm
      exact List.all_eq_true.mpr (fun c hc => List.mem_takeWhile_imp hc)
    · exact Option.noConfusion h

lemma bankScan_mem : ∀ (fuel : Nat) (prev : Option Char) (l m : List Char),
    m ∈ bankScan fuel prev l → m.all Char.isDigit = true := by
  intro fuel
  induction fuel with
  | zero => intro prev l m hm; simp [bankScan] at hm
  | succ n ih =>
    intro prev l m hm
    cases l with
    | nil => simp [bankScan] at hm
    | cons c rest =>
      rw [bankScan] at hm
      cases hA : bankAttempt prev (c :: rest) with
      | none => rw [hA] at hm; exact ih _ _ _ hm
      | some pr =>
        obtain ⟨m0, r0⟩ := pr
        rw [hA] at hm
        simp only [List.mem_cons] at hm
        rcases hm with rfl | hm
        · exact bankAttempt_digits hA
        · exact ih _ _ _ hm

/-- C3: every entry of the `bank_accounts` category returned by the
deterministic layer is a digit string of length between 11 and 16 (a 9–18
digit token is only a candidate; retention needs 11–16); concretely,
"Transfer to account 123456789012" yields exactly the 12-digit account and a
bare 5-digit number yields nothing. -/
theorem bank_account_retention_band :
    (∀ (text a : String), a ∈ extract_with_regex_bank_accounts text →
      (11 ≤ a.length ∧ a.length ≤ 16) ∧ a.data.all Char.isDigit = true) ∧
    extract_with_regex_bank_accounts "Transfer to account 123456789012" = ["123456789012"] ∧
    extract_with_regex_bank_accounts "Call me at 12345" = [] := by
  refine ⟨?_, by decide, by decide⟩
  intro text a ha
  unfold extract_with_regex_bank_accounts at ha
  rw [List.mem_dedup] at ha
  rcases List.mem_map.mp ha with ⟨m, hm, rfl⟩
  rcases List.mem_filter.mp hm with ⟨hscan, hcond⟩
  simp only [Bool.and_eq_true, decide_eq_true_eq] at hcond
  exact ⟨hcond, bankScan_mem _ _ _ _ hscan⟩

/-- Witness for `bank_account_retention_band`: the 12-digit account of the
spec's example is in the result and in the retention band. -/
theorem bank_account_retention_band_witness :
    "123456789012" ∈ extract_with_regex_bank_accounts "Transfer to account 123456789012" ∧
    ((11 ≤ ("123456789012" : String).length ∧ ("123456789012" : String).length ≤ 16) ∧
      ("123456789012" : String).data.all Char.isDigit = true) :=
  ⟨by decide,
    bank_account_retention_band.1 "Transfer to account 123456789012" "123456789012" (by decide)⟩

lemma isDigit_of_isHighDigit {c : Char} (h : isHighDigit c = true) : c.isDigit = true := by
  simp only [isHighDigit, Bool.or_eq_true, beq_iff_eq] at h
  rcases h with ((rfl | rfl) | rfl) | rfl <;> decide

lemma pySep_eq_false_of_isDigit {c : Char} (h : c.isDigit = true) : pySep c = false := by
  cases hp : pySep c
  · rfl
  · exfalso
    simp only [pySep, Bool.or_eq_true, beq_iff_eq] at hp
    rcases hp with (((((rfl | rfl) | rfl) | rfl) | rfl) | rfl) | rfl <;>
      exact absurd h (by decide)

lemma stripSep_of_all_digits {l : List Char} (h : l.all Char.isDigit = true) :
    stripSep l = l := by
  induction l with
  | nil => rfl
  | cons c rest ih =>
    simp only [List.all_cons, Bool.and_eq_true] at h
    have hc := pySep_eq_false_of_isDigit h.1
    simp only [stripSep, List.filter_cons, hc, Bool.not_false, if_pos] at ih ⊢
    rw [ih h.2]

lemma phoneCore_some {l m r : List Char} (h : phoneCore l = some (m, r)) :
    m.length = 10 ∧ m.all Char.isDigit = true := by
  cases l with
  | nil => exact Option.noConfusion h
  | cons c rest =>
    simp only [phoneCore] at h
    split at h
    · rename_i hcond
      obtain ⟨hhigh, hlen, hall, _⟩ := hcond
      rw [Option.some.injEq, Prod.mk.injEq] at h
      obtain ⟨hm, _⟩ := h
      subst hm
      refine ⟨by simp [hlen], ?_⟩
      simp [List.all_cons, isDigit_of_isHighDigit hhigh, hall]
    · exact Option.noConfusion h

lemma phonePlusBranch_stripped {prev : Option Char} {rest m r : List Char}
    (h : phonePlusBranch prev rest = some (m, r)) :
    (stripSep m).length = 13 ∧ (stripSep m).take 3 = ['+', '9', '1'] := by
  have hplus : pySep '+' = false := by decide
  have h9 : pySep '9' = false := by decide
  have h1 : pySep '1' = false := by decide
  unfold phonePlusBranch at h
  split at h
  · split at h
    · exact Option.noConfusion h
    · rename_i c rest2
      split at h
      · rename_i hsep
        rcases Option.map_eq_some'.mp h with ⟨⟨m0, r0⟩, hcore, hpair⟩
        rw [Prod.mk.injEq] at hpair
        obtain ⟨hm, _⟩ := hpair
        subst hm
        obtain ⟨hlen0, hdig0⟩ := phoneCore_some hcore
        have hstrip0 : stripSep m0 = m0 := stripSep_of_all_digits hdig0
        simp only [stripSep, List.filter_cons, hplus, h9, h1, hsep, Bool.not_false,
          Bool.not_true, if_pos, if_neg] at hstrip0 ⊢
        rw [hstrip0]
        simp [hlen0]
      · rcases Option.map_eq_some'.mp h with ⟨⟨m0, r0⟩, hcore, hpair⟩
        rw [Prod.mk.injEq] at hpair
        obtain ⟨hm, _⟩ := hpair
        subst hm
        obtain ⟨hlen0, hdig0⟩ := phoneCore_some hcore
        have hstrip0 : stripSep m0 = m0 := stripSep_of_all_digits hdig0
        simp only [stripSep, List.filter_cons, hplus, h9, h1, Bool.not_false, if_pos] at hstrip0 ⊢
        rw [hstrip0]
        simp [hlen0]
  · exact Option.noConfusion h

lemma phoneAttempt_stripped {prev : Option Char} {l m r : List Char}
    (h : phoneAttempt prev l = some (m, r)) :
    (stripSep m).length = 10 ∨
    ((stripSep m).length = 13 ∧ (stripSep m).take 3 = ['+', '9', '1']) := by
  unfold phoneAttempt at h
  split at h
  · exact Or.inr (phonePlusBranch_stripped h)
  · split at h
    · exact Option.noConfusion h
    · obtain ⟨hlen, hdig⟩ := phoneCore_some h
      rw [stripSep_of_all_digits hdig]
      exact Or.inl hlen

lemma phoneScan_mem : ∀ (fuel : Nat) (prev : Option Char) (l m : List Char),
    m ∈ phoneScan fuel prev l →
    (stripSep m).length = 10 ∨
    ((stripSep m).length = 13 ∧ (stripSep m).take 3 = ['+', '9', '1']) := by
  intro fuel
  induction fuel with
  | zero => intro prev l m hm; simp [phoneScan] at hm
  | succ n ih =>
    intro prev l m hm
    cases l with
    | nil => simp [phoneScan] at hm
    | cons c rest =>
      rw [phoneScan] at hm
      cases hA : phoneAttempt prev (c :: rest) with
      | none => rw [hA] at hm; exact ih _ _ _ hm
      | some pr =>
        obtain ⟨m0, r0⟩ := pr
        rw [hA] at hm
        simp only [List.mem_cons] at hm
        rcases hm with rfl | hm
        · exact phoneAttempt_stripped hA
        · exact ih _ _ _ hm

/-- C4 counterexample: a text containing both "+919876543210" and
"9876543210" for which the phone category keeps two distinct entries — the
occurrences do not normalize to one canonical prefixed representation and do
not deduplicate to one entry.  (The code strips separators but never adds a
"+91" prefix, so a matched prefixed occurrence and a bare occurrence stay
different.) -/
theorem phone_numbers_not_canonicalized :
    strContains "x+919876543210 and 9876543210" "+919876543210" = true ∧
    strContains "x+919876543210 and 9876543210" "9876543210" = true ∧
    (extract_with_regex_phone_numbers "x+919876543210 and 9876543210").length = 2 ∧
    (extract_with_regex_phone_numbers "x+919876543210 and 9876543210").toFinset =
      {"+919876543210", "9876543210"} ∧
    ("+919876543210" : String) ≠ "9876543210" := by
  refine ⟨by decide, by decide, by decide, by decide, by decide⟩

/-- C4 (amended): phone extraction matches an optional "+91" token (admitted
by the regex's leading word boundary only when the "+" directly follows a word
character) followed by a ten-digit number whose first digit is in 6–9, and
strips space and hyphen separators — but it adds no prefix, so every retained
entry keeps its original shape: either the bare 10-digit form or the
13-character "+91"-prefixed form, and the two shapes are distinct entries.  In
particular the spec's own example text retains only the bare "9876543210"
(the whitespace-preceded "+919876543210" is not matched at all). -/
theorem phone_numbers_keep_original_form :
    (∀ (text p : String), p ∈ extract_with_regex_phone_numbers text →
      p.length = 10 ∨ (p.length = 13 ∧ p.data.take 3 = ['+', '9', '1'])) ∧
    extract_with_regex_phone_numbers "Call +919876543210\nContact: 9876543210" =
      ["9876543210"] := by
  constructor
  · intro text p hp
    unfold extract_with_regex_phone_numbers at hp
    rw [List.mem_dedup] at hp
    rcases List.mem_map.mp hp with ⟨m, hm, rfl⟩
    exact phoneScan_mem _ _ _ _ hm
  · decide

/-- Witness for `phone_numbers_keep_original_form`: the retained entry of the
spec's example is the bare 10-digit form. -/
theorem phone_numbers_keep_original_form_witness :
    "9876543210" ∈
      extract_with_regex_phone_numbers "Call +919876543210\nContact: 9876543210" ∧
    (("9876543210" : String).length = 10 ∨
      (("9876543210" : String).length = 13 ∧
        ("9876543210" : String).data.take 3 = ['+', '9', '1'])) :=
  ⟨by decide,
    phone_numbers_keep_original_form.1 "Call +919876543210\nContact: 9876543210"
      "9876543210" (by decide)⟩
